import Mathlib

/-!
Verification of the crawl-orchestration engine described by the repository's
documentation: configuration resolution, the durable task queue, bounded retry
with terminal-failure routing, the autoscaling concurrency controller,
interval-based state persistence, and the run orchestrator.  The repository
ships the documentation of these components; the components themselves are
modelled here from that documentation, faithfully to its words.
-/

namespace Crawlee

/-- Configuration keys are identified by name. -/
abbrev ConfigKey := String

/-- Configuration values are opaque to the resolution mechanism. -/
abbrev ConfigValue := String

/-- A configuration layer: a partial assignment of values to keys. -/
abbrev ConfigLayer := ConfigKey → Option ConfigValue

/-- Modelled from the spec: the Configuration class implementation is not in
the repository (only its documentation page is).  The documentation fixes the
precedence `crawlee.json` < constructor options < environment variables:
the JSON file is a baseline, constructor options override it, and environment
variables override both. -/
def resolveConfig (file ctor env : ConfigLayer) (k : ConfigKey) : Option ConfigValue :=
  match env k with
  | some v => some v
  | none =>
    match ctor k with
    | some v => some v
    | none => file k

/-- Modelled from the spec: the AutoscaledPool memory-budget computation is not
in the repository.  The documentation states that CRAWLEE_MEMORY_MBYTES sets
the amount of system memory used to limit concurrency and that by default one
quarter of total system memory is used. -/
def maxUsedMemoryMbytes (envMemoryMbytes : Option Nat) (totalSystemMemoryMbytes : Nat) : Nat :=
  match envMemoryMbytes with
  | some m => m
  | none => totalSystemMemoryMbytes / 4

/-- Modelled from the spec: the storage-purging logic is not in the repository.
The documentation states storage directories are purged by default, and are not
purged when CRAWLEE_PURGE_ON_START is set to `false`. -/
def shouldPurgeOnStart (envPurgeOnStart : Option String) : Bool :=
  match envPurgeOnStart with
  | some "false" => false
  | _ => true

/-- Modelled from the spec: at the start of a crawler run (or before a storage
is first opened) the local storage directory is purged when purging is enabled,
otherwise previously stored items are preserved. -/
def storageAtRunStart (envPurgeOnStart : Option String) (storedItems : List String) :
    List String :=
  if shouldPurgeOnStart envPurgeOnStart then [] else storedItems

/-- Task lifecycle states: Pending, InFlight, Retrying, Succeeded,
FailedTerminal. -/
inductive TaskState
  | pending
  | inFlight
  | retrying
  | succeeded
  | failedTerminal
deriving DecidableEq, Repr

/-- A state is non-terminal unless it is Succeeded or FailedTerminal. -/
def TaskState.nonTerminal : TaskState → Bool
  | .succeeded => false
  | .failedTerminal => false
  | _ => true

/-- A task record owned by the TaskQueue: dedupe key, lifecycle state and
attempt count. -/
structure TaskRecord where
  key : String
  state : TaskState
  attempts : Nat
deriving DecidableEq, Repr

/-- The TaskQueue holds the task records of the run. -/
abbrev TaskQueue := List TaskRecord

/-- Number of records in the queue carrying a given dedupe key. -/
def countKey (q : TaskQueue) (k : String) : Nat :=
  q.countP (fun r => r.key == k)

/-- Modelled from the spec: TaskQueue.enqueue is not in the repository.  It
fails silently (idempotent no-op) if the key already exists in any
non-terminal state, otherwise inserts the task as Pending; it returns whether
a new task was actually added. -/
def enqueue (q : TaskQueue) (k : String) : TaskQueue × Bool :=
  if q.any (fun r => r.key == k && r.state.nonTerminal) then (q, false)
  else (q ++ [⟨k, .pending, 0⟩], true)

/-- Iterated enqueue of the same key, modelling a sequence of enqueue calls. -/
def enqueueIter (q : TaskQueue) (k : String) : Nat → TaskQueue
  | 0 => q
  | n + 1 => (enqueue (enqueueIter q k n) k).1

/-- Outcome of one execution attempt of a task by the external capability. -/
inductive Outcome
  | success
  | failure (retriable : Bool)

/-- Events recorded while the orchestrator processes a single task. -/
inductive TaskEvent
  | dispatched (attempt : Nat)
  | attemptFailed (attempt : Nat)
  | succeeded
  | requeued (attempt : Nat)
  | terminalFailed
  | failedCallback
deriving DecidableEq, Repr

/-- Modelled from the spec: RetryPolicy and the orchestrator routing of one
task are not in the repository.  The task is dispatched and executed; on
success it is Succeeded; on failure, if the error is retriable and
attempt_count < max_retries it is requeued with the attempt count increased,
else it reaches FailedTerminal and the failure callback fires exactly then.
The fuel argument bounds the recursion; maxRetries + 1 dispatches suffice. -/
def processTask (exec : Nat → Outcome) (maxRetries : Nat) :
    Nat → Nat → List TaskEvent
  | 0, _ => []
  | fuel + 1, attempt =>
    TaskEvent.dispatched attempt ::
      match exec attempt with
      | .success => [.succeeded]
      | .failure retriable =>
        TaskEvent.attemptFailed attempt ::
          if retriable = true ∧ attempt < maxRetries then
            TaskEvent.requeued (attempt + 1) ::
              processTask exec maxRetries fuel (attempt + 1)
          else [.terminalFailed, .failedCallback]

/-- Full processing of one task from its first attempt. -/
def runTask (exec : Nat → Outcome) (maxRetries : Nat) : List TaskEvent :=
  processTask exec maxRetries (maxRetries + 1) 0

/-- Number of dispatches in an event trace. -/
def countDispatches (evts : List TaskEvent) : Nat :=
  evts.countP (fun e => match e with | .dispatched _ => true | _ => false)

/-- Number of failed-request callback firings in an event trace. -/
def countCallbacks (evts : List TaskEvent) : Nat :=
  evts.countP (fun e => e == .failedCallback)

/-- Configured bounds and policy parameters of the autoscaling controller:
concurrency bounds, scaling step sizes, and utilization watermarks (in
percent). -/
structure AutoscaleConfig where
  cmin : Nat
  cmax : Nat
  upStep : Nat
  downStep : Nat
  lowWatermark : Nat
  highWatermark : Nat
deriving DecidableEq, Repr

/-- Autoscaled pool state: the current concurrency limit C, the number of
tasks currently InFlight, and whether the scale-up cooldown has elapsed. -/
structure PoolState where
  limit : Nat
  inFlight : Nat
  cooldownElapsed : Bool
deriving DecidableEq, Repr

/-- Modelled from the spec: the AutoscalingController implementation is not in
the repository.  On a sampling tick, given cpu and memory utilization: if both
are below the low watermark and the scale-up cooldown has elapsed, C increases
by a small step bounded above by Cmax; if either exceeds the high watermark, C
decreases immediately by a larger step bounded below by Cmin and the scale-up
cooldown timer is reset; otherwise C is unchanged. -/
def autoscaleTick (cfg : AutoscaleConfig) (s : PoolState) (cpu mem : Nat) : PoolState :=
  if cpu < cfg.lowWatermark ∧ mem < cfg.lowWatermark ∧ s.cooldownElapsed = true then
    { s with limit := min (s.limit + cfg.upStep) cfg.cmax }
  else if cfg.highWatermark < cpu ∨ cfg.highWatermark < mem then
    { s with limit := max (s.limit - cfg.downStep) cfg.cmin, cooldownElapsed := false }
  else s

/-- Modelled from the spec: the observable steps of a run as they affect the
pool.  A controller sampling tick adjusts C; the cooldown timer may elapse; an
execution slot is granted only while fewer than C tasks are InFlight (the
counting semaphore sized to C is the sole gate); a completing task releases
its slot.  Shrinking C does not preempt already-running tasks. -/
inductive PoolStep (cfg : AutoscaleConfig) : PoolState → PoolState → Prop
  | tick (s : PoolState) (cpu mem : Nat) : PoolStep cfg s (autoscaleTick cfg s cpu mem)
  | cooldown (s : PoolState) : PoolStep cfg s { s with cooldownElapsed := true }
  | grant (s : PoolState) (h : s.inFlight < s.limit) :
      PoolStep cfg s { s with inFlight := s.inFlight + 1 }
  | complete (s : PoolState) (h : 0 < s.inFlight) :
      PoolStep cfg s { s with inFlight := s.inFlight - 1 }

/-- Pool states reachable from an initial state by any sequence of steps. -/
def PoolReachable (cfg : AutoscaleConfig) (init s : PoolState) : Prop :=
  Relation.ReflTransGen (PoolStep cfg) init s

/-- Orchestrator state relevant to the total-task cap: how many tasks are
still pending in the queue and how many dispatches have been performed. -/
structure OrchState where
  pending : Nat
  dispatched : Nat
deriving DecidableEq, Repr

/-- Modelled from the spec: the RunOrchestrator dispatch loop is not in the
repository.  A dispatch takes one pending task and counts it, and is possible
only while the configured total-task cap has not been reached; processing may
discover and enqueue any number of new tasks. -/
inductive OrchStep (cap : Nat) : OrchState → OrchState → Prop
  | dispatch (s : OrchState) (hp : 0 < s.pending) (hc : s.dispatched < cap) :
      OrchStep cap s ⟨s.pending - 1, s.dispatched + 1⟩
  | discover (s : OrchState) (n : Nat) : OrchStep cap s ⟨s.pending + n, s.dispatched⟩

/-- Orchestrator states reachable from an initial state. -/
def OrchReachable (cap : Nat) (init s : OrchState) : Prop :=
  Relation.ReflTransGen (OrchStep cap) init s

/-- A persisted snapshot write, tagged with the run time (in milliseconds) at
which it happened. -/
inductive PersistWrite
  | periodic (time : Nat)
  | final (time : Nat)
deriving DecidableEq, Repr

/-- Modelled from the spec: the StatePersister implementation is not in the
repository.  It runs on a fixed interval: one periodic snapshot write happens
at each multiple of the interval that falls within the elapsed run time. -/
def periodicWrites (intervalMillis upToMillis : Nat) : List PersistWrite :=
  (List.range (upToMillis / intervalMillis)).map
    (fun i => .periodic ((i + 1) * intervalMillis))

/-- Modelled from the spec: a run ending in graceful shutdown performs one
final synchronous persist after the periodic writes; a run killed abruptly
performs no final write. -/
def persistLog (intervalMillis duration : Nat) (graceful : Bool) : List PersistWrite :=
  periodicWrites intervalMillis duration ++ if graceful then [.final duration] else []

/-- Number of periodic snapshot writes in a persist log. -/
def countPeriodic (log : List PersistWrite) : Nat :=
  log.countP (fun w => match w with | .periodic _ => true | _ => false)

/-- Where a restarted run takes its initial task set from. -/
inductive ResumeSource
  | fromSnapshot (w : PersistWrite)
  | fromSeeds
deriving DecidableEq, Repr

/-- Modelled from the spec: on restart, if a prior snapshot exists the run is
restored from the last one; otherwise the run starts from the caller-supplied
seed set only. -/
def resumeSource (log : List PersistWrite) : ResumeSource :=
  match log.getLast? with
  | some w => .fromSnapshot w
  | none => .fromSeeds

/-- A Configuration instance is its explicitly set options layer (the file
baseline and constructor options, merged at construction time). -/
structure ConfigInstance where
  options : ConfigLayer

/-- Process-wide state: the global default Configuration instance, and the
resolved configuration captured by each run that has started. -/
structure ProcessState where
  globalConfig : ConfigInstance
  runConfigs : List (ConfigKey → Option ConfigValue)

/-- Modelled from the spec: Configuration.set is not in the repository; it
mutates one option of the global default instance in place. -/
def setGlobalOption (p : ProcessState) (k : ConfigKey) (v : ConfigValue) : ProcessState :=
  { p with globalConfig :=
      ⟨fun k2 => if k2 = k then some v else p.globalConfig.options k2⟩ }

/-- Modelled from the spec: each run captures an immutable resolved copy of
the configuration at run start — here the global default instance, resolved
against the environment layer. -/
def startRun (p : ProcessState) (env : ConfigLayer) : ProcessState :=
  { p with runConfigs :=
      (fun k => resolveConfig (fun _ => none) p.globalConfig.options env k) ::
        p.runConfigs }

/-- C1: configuration resolution obeys the fixed precedence order — an
environment-variable value wins over both other layers, a constructor option
wins over the file baseline when no environment value is set, and the file
baseline applies only when neither other layer sets the key. -/
theorem config_precedence (file ctor env : ConfigLayer) (k : ConfigKey) :
    (∀ v, env k = some v → resolveConfig file ctor env k = some v) ∧
    (env k = none → ∀ v, ctor k = some v → resolveConfig file ctor env k = some v) ∧
    (env k = none → ctor k = none → resolveConfig file ctor env k = file k) := by
  refine ⟨?_, ?_, ?_⟩ <;> intros <;> simp [resolveConfig, *]

/-- Witness for C1: with all three layers setting the same key, resolution
returns the environment value; with the environment unset, the constructor
option; with both unset, the file baseline. -/
theorem config_precedence_witness :
    resolveConfig (fun _ => some "f") (fun _ => some "c") (fun _ => some "e") "k" = some "e" ∧
    resolveConfig (fun _ => some "f") (fun _ => some "c") (fun _ => none) "k" = some "c" ∧
    resolveConfig (fun _ => some "f") (fun _ => none) (fun _ => none) "k" = some "f" :=
  ⟨(config_precedence (fun _ => some "f") (fun _ => some "c") (fun _ => some "e") "k").1 "e" rfl,
   (config_precedence (fun _ => some "f") (fun _ => some "c") (fun _ => none) "k").2.1 rfl "c" rfl,
   (config_precedence (fun _ => some "f") (fun _ => none) (fun _ => none) "k").2.2 rfl rfl⟩

/-- C9: when CRAWLEE_MEMORY_MBYTES is unset, the memory budget used by the
autoscaled pool defaults to exactly one quarter of total system memory; on a
system with 8192 MB this is 2048 MB. -/
theorem default_memory_is_quarter (total : Nat) :
    maxUsedMemoryMbytes none total = total / 4 ∧ maxUsedMemoryMbytes none 8192 = 2048 :=
  ⟨rfl, rfl⟩

/-- C10: storage is purged at run start by default (the environment variable
unset), and is preserved across runs exactly when CRAWLEE_PURGE_ON_START is set
to `false`. -/
theorem purge_on_start (items : List String) :
    shouldPurgeOnStart none = true ∧
    storageAtRunStart none items = [] ∧
    shouldPurgeOnStart (some "false") = false ∧
    storageAtRunStart (some "false") items = items := by
  refine ⟨rfl, rfl, rfl, ?_⟩
  simp [storageAtRunStart, shouldPurgeOnStart]

/-- Helper: a key with no record in the queue is actually inserted. -/
theorem enqueue_of_absent (q : TaskQueue) (k : String) (h : countKey q k = 0) :
    enqueue q k = (q ++ [⟨k, .pending, 0⟩], true) := by
  have hall : ∀ r ∈ q, ¬(r.key == k) = true := by
    intro r hr
    exact (List.countP_eq_zero.mp h) r hr
  have hany : q.any (fun r => r.key == k && r.state.nonTerminal) = false := by
    rw [List.any_eq_false]
    intro r hr
    simp only [Bool.and_eq_true, not_and]
    intro hk
    exact absurd hk (hall r hr)
  simp [enqueue, hany]

/-- Helper: a key present on a non-terminal record makes enqueue a silent
no-op. -/
theorem enqueue_of_nonterminal (q : TaskQueue) (k : String)
    (h : ∃ r ∈ q, r.key = k ∧ r.state.nonTerminal = true) :
    enqueue q k = (q, false) := by
  obtain ⟨r, hr, hk, hnt⟩ := h
  have hany : q.any (fun r => r.key == k && r.state.nonTerminal) = true := by
    rw [List.any_eq_true]
    exact ⟨r, hr, by simp [hk, hnt]⟩
  simp [enqueue, hany]

/-- C8: starting from a queue without the key, the first enqueue reports that
a new task was added; while that record is non-terminal every further enqueue
of the same key is a silent no-op, the queue keeps exactly one record for the
key, and in general the boolean returned by enqueue reports whether a record
was actually added. -/
theorem enqueue_idempotent (q0 : TaskQueue) (k : String) (h0 : countKey q0 k = 0) :
    (enqueue q0 k).2 = true ∧
    (∀ n, enqueueIter (enqueue q0 k).1 k n = (enqueue q0 k).1) ∧
    (∀ n, countKey (enqueueIter (enqueue q0 k).1 k n) k = 1) ∧
    (∀ q, (enqueue q k).1.length = q.length + (if (enqueue q k).2 then 1 else 0)) := by
  have hfirst := enqueue_of_absent q0 k h0
  have hq1 : (enqueue q0 k).1 = q0 ++ [⟨k, .pending, 0⟩] := by rw [hfirst]
  have hmem : ∃ r ∈ (enqueue q0 k).1, r.key = k ∧ r.state.nonTerminal = true := by
    refine ⟨⟨k, .pending, 0⟩, ?_, rfl, rfl⟩
    rw [hq1]
    simp
  have hnoop := enqueue_of_nonterminal (enqueue q0 k).1 k hmem
  have hiter : ∀ n, enqueueIter (enqueue q0 k).1 k n = (enqueue q0 k).1 := by
    intro n
    induction n with
    | zero => rfl
    | succ m ih => simp [enqueueIter, ih, hnoop]
  refine ⟨by rw [hfirst], hiter, ?_, ?_⟩
  · intro n
    rw [hiter n, hq1]
    unfold countKey at h0 ⊢
    rw [List.countP_append, h0]
    simp
  · intro q
    by_cases hc : q.any (fun r => r.key == k && r.state.nonTerminal) = true
    · simp [enqueue, hc]
    · simp [enqueue, hc]

/-- Witness for C8: enqueueing the key "a" into the empty queue adds it, and a
second enqueue of "a" is a no-op leaving exactly one record. -/
theorem enqueue_idempotent_witness :
    (enqueue [] "a").2 = true ∧
    (∀ n, enqueueIter (enqueue [] "a").1 "a" n = (enqueue [] "a").1) ∧
    (∀ n, countKey (enqueueIter (enqueue [] "a").1 "a" n) "a" = 1) ∧
    (∀ q, (enqueue q "a").1.length = q.length + (if (enqueue q "a").2 then 1 else 0)) :=
  enqueue_idempotent [] "a" (by decide)

/-- C2: a task whose execution always fails with a retriable error, under
max_retries = 1, is dispatched at most twice (exactly twice), reaches
FailedTerminal, and the failure callback fires exactly once, as the very last
event — after retries are exhausted, never before. -/
theorem failing_task_retry (exec : Nat → Outcome)
    (hfail : ∀ a, exec a = .failure true) :
    countDispatches (runTask exec 1) ≤ 2 ∧
    countDispatches (runTask exec 1) = 2 ∧
    TaskEvent.terminalFailed ∈ runTask exec 1 ∧
    countCallbacks (runTask exec 1) = 1 ∧
    (runTask exec 1).getLast? = some .failedCallback := by
  have htrace : runTask exec 1 =
      [.dispatched 0, .attemptFailed 0, .requeued 1,
       .dispatched 1, .attemptFailed 1, .terminalFailed, .failedCallback] := by
    simp [runTask, processTask, hfail 0, hfail 1]
  rw [htrace]
  refine ⟨by decide, by decide, by decide, by decide, by decide⟩

/-- Witness for C2: the concrete execution capability that fails every attempt
with a retriable error exhibits the claimed behavior. -/
theorem failing_task_retry_witness :
    countDispatches (runTask (fun _ => .failure true) 1) ≤ 2 ∧
    countDispatches (runTask (fun _ => .failure true) 1) = 2 ∧
    TaskEvent.terminalFailed ∈ runTask (fun _ => .failure true) 1 ∧
    countCallbacks (runTask (fun _ => .failure true) 1) = 1 ∧
    (runTask (fun _ => .failure true) 1).getLast? = some .failedCallback :=
  failing_task_retry (fun _ => .failure true) (fun _ => rfl)

/-- C3 counterexample: with bounds [1, 2], a state with two InFlight tasks and
concurrency limit 1 is reachable — grant two slots at limit 2, then a
high-utilization tick scales the limit down to 1 without preempting the two
running tasks, so the InFlight count exceeds C. -/
theorem inflight_can_exceed_limit :
    ¬ (∀ s, PoolReachable ⟨1, 2, 1, 1, 10, 80⟩ ⟨2, 0, false⟩ s →
        s.inFlight ≤ s.limit) := by
  intro h
  have h1 : PoolStep ⟨1, 2, 1, 1, 10, 80⟩ ⟨2, 0, false⟩ ⟨2, 1, false⟩ :=
    PoolStep.grant ⟨2, 0, false⟩ (by decide)
  have h2 : PoolStep ⟨1, 2, 1, 1, 10, 80⟩ ⟨2, 1, false⟩ ⟨2, 2, false⟩ :=
    PoolStep.grant ⟨2, 1, false⟩ (by decide)
  have heq : autoscaleTick ⟨1, 2, 1, 1, 10, 80⟩ ⟨2, 2, false⟩ 90 0 = ⟨1, 2, false⟩ := by
    simp [autoscaleTick]
  have h3 : PoolStep ⟨1, 2, 1, 1, 10, 80⟩ ⟨2, 2, false⟩ ⟨1, 2, false⟩ :=
    heq ▸ PoolStep.tick ⟨2, 2, false⟩ 90 0
  have hreach : PoolReachable ⟨1, 2, 1, 1, 10, 80⟩ ⟨2, 0, false⟩ ⟨1, 2, false⟩ :=
    Relation.ReflTransGen.tail
      (Relation.ReflTransGen.tail
        (Relation.ReflTransGen.tail Relation.ReflTransGen.refl h1) h2) h3
  have := h ⟨1, 2, false⟩ hreach
  simp at this

/-- C3 (amended): in every reachable pool state the concurrency limit C lies
within [Cmin, Cmax] and the InFlight count never exceeds Cmax; moreover no
step raises the InFlight count above C — a slot is granted only while
InFlight < C — though after a scale-down the InFlight count may transiently
exceed C, since shrinking C does not preempt running tasks. -/
theorem autoscaling_bounds (cfg : AutoscaleConfig) (init s : PoolState)
    (hcc : cfg.cmin ≤ cfg.cmax)
    (hinit : cfg.cmin ≤ init.limit ∧ init.limit ≤ cfg.cmax ∧ init.inFlight ≤ cfg.cmax)
    (hreach : PoolReachable cfg init s) :
    (cfg.cmin ≤ s.limit ∧ s.limit ≤ cfg.cmax ∧ s.inFlight ≤ cfg.cmax) ∧
    (∀ t u, PoolStep cfg t u → u.inFlight ≤ max t.inFlight t.limit) := by
  have hstepbound : ∀ t u, PoolStep cfg t u → u.inFlight ≤ max t.inFlight t.limit := by
    intro t u hstep
    cases hstep with
    | tick cpu mem =>
      unfold autoscaleTick
      split
      · simp [Nat.le_max_left]
      · split <;> simp [Nat.le_max_left]
    | cooldown => simp [Nat.le_max_left]
    | grant h => simp; omega
    | complete h => simp
  refine ⟨?_, hstepbound⟩
  induction hreach with
  | refl => exact hinit
  | tail hsteps hstep ih =>
    obtain ⟨il, lu, fu⟩ := ih
    cases hstep with
    | tick cpu mem =>
      unfold autoscaleTick
      split
      · refine ⟨?_, ?_, fu⟩ <;> (simp; try omega)
      · split
        · refine ⟨?_, ?_, fu⟩ <;> (simp; try omega)
        · exact ⟨il, lu, fu⟩
    | cooldown => exact ⟨il, lu, fu⟩
    | grant h => exact ⟨il, lu, by simp; omega⟩
    | complete h => exact ⟨il, lu, by simp; omega⟩

/-- Witness for the amended C3: bounds [1, 2] with initial limit 2 and no task
InFlight satisfy the invariant at the initial (trivially reachable) state. -/
theorem autoscaling_bounds_witness :
    ((1 : Nat) ≤ 2 ∧ (1 ≤ 2 ∧ 2 ≤ 2 ∧ 0 ≤ 2)) ∧
    (1 ≤ (⟨2, 0, false⟩ : PoolState).limit ∧
      (⟨2, 0, false⟩ : PoolState).limit ≤ 2 ∧
      (⟨2, 0, false⟩ : PoolState).inFlight ≤ 2) ∧
    (∀ t u, PoolStep ⟨1, 2, 1, 1, 10, 80⟩ t u → u.inFlight ≤ max t.inFlight t.limit) :=
  ⟨⟨by decide, by decide, by decide, by decide⟩,
    (autoscaling_bounds ⟨1, 2, 1, 1, 10, 80⟩ ⟨2, 0, false⟩ ⟨2, 0, false⟩
      (by decide) ⟨by decide, by decide, by decide⟩ Relation.ReflTransGen.refl).1,
    (autoscaling_bounds ⟨1, 2, 1, 1, 10, 80⟩ ⟨2, 0, false⟩ ⟨2, 0, false⟩
      (by decide) ⟨by decide, by decide, by decide⟩ Relation.ReflTransGen.refl).2⟩

/-- C4: starting from any seed set, in every reachable orchestrator state the
number of dispatched tasks never exceeds the configured total-task cap, and
once the cap is reached no step dispatches another task, regardless of how
many tasks remain pending in the queue. -/
theorem total_task_cap (cap seeds : Nat) (s : OrchState)
    (hreach : OrchReachable cap ⟨seeds, 0⟩ s) :
    s.dispatched ≤ cap ∧
    (s.dispatched = cap → ∀ t, OrchStep cap s t → t.dispatched = s.dispatched) := by
  constructor
  · induction hreach with
    | refl => exact Nat.zero_le cap
    | tail hsteps hstep ih =>
      cases hstep with
      | dispatch hp hc => simpa using hc
      | discover n => simpa using ih
  · intro hfull t hstep
    cases hstep with
    | dispatch hp hc => omega
    | discover n => rfl

/-- Witness for C4: with a cap of 10 and 15 seeded tasks, the initial state is
reachable, has dispatched no task, and the cap bound holds there. -/
theorem total_task_cap_witness :
    (⟨15, 0⟩ : OrchState).dispatched ≤ 10 :=
  (total_task_cap 10 15 ⟨15, 0⟩ Relation.ReflTransGen.refl).1

/-- C5: with a persistence interval of 10 seconds and a run of 15 seconds
ending in graceful shutdown, exactly one periodic snapshot write occurs (which
satisfies "exactly one or two") before the final shutdown write, which is the
last write of the log; and in general the first snapshot exists as soon as the
first interval has elapsed. -/
theorem persist_interval_snapshot :
    (countPeriodic (persistLog 10000 15000 true) = 1 ∨
      countPeriodic (persistLog 10000 15000 true) = 2) ∧
    (persistLog 10000 15000 true).getLast? = some (.final 15000) ∧
    (∀ t, 10000 ≤ t → 1 ≤ (periodicWrites 10000 t).length) := by
  refine ⟨Or.inl (by decide), by decide, ?_⟩
  intro t ht
  simp [periodicWrites]
  omega

/-- Witness for C5: at the moment the first 10-second interval elapses, at
least one periodic snapshot write has occurred. -/
theorem persist_interval_snapshot_witness :
    1 ≤ (periodicWrites 10000 10000).length :=
  persist_interval_snapshot.2.2 10000 (by decide)

/-- C6: if the process is killed before the first persistence interval has
elapsed, the persist log is empty — no checkpoint was written — and resumption
starts from the caller-supplied seed set only. -/
theorem kill_before_first_interval (intervalMillis killTime : Nat)
    (hk : killTime < intervalMillis) :
    persistLog intervalMillis killTime false = [] ∧
    resumeSource (persistLog intervalMillis killTime false) = .fromSeeds := by
  have hdiv : killTime / intervalMillis = 0 := Nat.div_eq_of_lt hk
  have h1 : persistLog intervalMillis killTime false = [] := by
    simp [persistLog, periodicWrites, hdiv]
  exact ⟨h1, by rw [h1]; rfl⟩

/-- Witness for C6: under the default 60-second persistence interval, a kill
at 15 seconds leaves no checkpoint and resumption uses the seed set. -/
theorem kill_before_first_interval_witness :
    persistLog 60000 15000 false = [] ∧
    resumeSource (persistLog 60000 15000 false) = .fromSeeds :=
  kill_before_first_interval 60000 15000 (by decide)

/-- C7: mutating the global default Configuration after a run has captured its
resolved copy takes effect on the global instance but leaves the running
crawl's effective configuration unchanged: for every key, the captured copy
still resolves as it did at run start. -/
theorem captured_config_immutable (p : ProcessState) (env : ConfigLayer)
    (k : ConfigKey) (v : ConfigValue) :
    (setGlobalOption (startRun p env) k v).globalConfig.options k = some v ∧
    (setGlobalOption (startRun p env) k v).runConfigs = (startRun p env).runConfigs ∧
    (∀ key, ((setGlobalOption (startRun p env) k v).runConfigs.head?.map
        (fun c => c key)) =
      some (resolveConfig (fun _ => none) p.globalConfig.options env key)) := by
  refine ⟨?_, rfl, ?_⟩
  · simp [setGlobalOption]
  · intro key
    rfl

end Crawlee
